import Mathlib

/-!
Verification of the Angular CLI webpack babel loader
(`packages/angular_devkit/build_angular/src/babel/webpack-loader.ts`).

Strings (file paths and source texts) are modelled as `List Char`.
The regular-expression tests used by the loader are all of a simple
substring/anchored shape and are embedded as decidable scanners below.
-/

namespace WebpackLoader

/-- `true` for the two path-separator characters matched by the `[\\/]`
character class in the loader's regular expressions. -/
def sepCharTest (c : Char) : Bool := c == '/' || c == '\\'

/-- A character predicate that matches exactly the literal character `c`. -/
def litP (c : Char) : Char → Bool := fun d => d == c

/-- Literal-character predicate list for a token. -/
def lits (s : List Char) : List (Char → Bool) := s.map litP

/-- Does the predicate list match a leading segment of `s`? -/
def matchSeq : List (Char → Bool) → List Char → Bool
  | [], _ => true
  | _ :: _, [] => false
  | p :: ps, c :: cs => p c && matchSeq ps cs

/-- Does the predicate list match starting at some position of `s`?
This is the semantics of an unanchored regular-expression `test` for a
pattern made of character classes and literals. -/
def scanFor (ps : List (Char → Bool)) : List Char → Bool
  | [] => matchSeq ps []
  | c :: cs => matchSeq ps (c :: cs) || scanFor ps cs

/-- `String.prototype.includes(tok)`: `tok` occurs as a contiguous
substring of `s`. -/
def strIncludes (tok : List Char) (s : List Char) : Bool :=
  scanFor (lits tok) s

/-- Does `s` end with the token `suf`? (anchored `$` match). -/
def strEnds (suf : List Char) (s : List Char) : Bool :=
  List.isSuffixOf suf s

/-- Pattern `[\\/]@angular[\\/]name`: a separator, the literal `@angular`,
a separator, then the literal token `name`. -/
def angularPkgPat (name : List Char) : List (Char → Bool) :=
  sepCharTest :: (lits "@angular".data ++ sepCharTest :: lits name)

/-- `/[\\/]@angular[\\/](?:compiler|core)|\.tsx?$/.test(path)` —
the exclusion test at the top of `requiresLinking` (webpack-loader.ts:44):
framework-internal compiler/core paths and TypeScript sources never
require linking. -/
def linkExcludeTest (path : List Char) : Bool :=
  scanFor (angularPkgPat "compiler".data) path
  || scanFor (angularPkgPat "core".data) path
  || strEnds ".ts".data path
  || strEnds ".tsx".data path

/-- `/\.[cm]?js$/.test(path)`: a plain or compiled JavaScript extension. -/
def jsExtTest (path : List Char) : Bool :=
  strEnds ".js".data path || strEnds ".cjs".data path || strEnds ".mjs".data path

/-- `/[\\/][_f]?esm2015[\\/]/.test(path)`: the path lies under a
pre-downlevelled `esm2015`-style directory (webpack-loader.ts:114). -/
def esm2015DirTest (path : List Char) : Bool :=
  scanFor (sepCharTest :: (lits "esm2015".data ++ [sepCharTest])) path
  || scanFor (sepCharTest :: (lits "_esm2015".data ++ [sepCharTest])) path
  || scanFor (sepCharTest :: (lits "fesm2015".data ++ [sepCharTest])) path

/-- `/[\\/]@angular[\\/](?:compiler|localize)/.test(path)` — the i18n
exclusion test (webpack-loader.ts:122). -/
def i18nExcludeTest (path : List Char) : Bool :=
  scanFor (angularPkgPat "compiler".data) path
  || scanFor (angularPkgPat "localize".data) path

/-- `/[\\/]node_modules[\\/]@angular[\\/]/.test(path)`: the file lives in
the framework's dependency namespace (webpack-loader.ts:148). -/
def nodeModulesAngularTest (path : List Char) : Bool :=
  scanFor (sepCharTest :: (lits "node_modules".data ++ angularPkgPat [])) path

/-- Relevant numeric values of the TypeScript `ScriptTarget` enum. -/
def scriptTargetES5 : Nat := 1

/-- `ScriptTarget.ES2015 = 2`. -/
def scriptTargetES2015 : Nat := 2

/-- `ScriptTarget.ES2017 = 4`. -/
def scriptTargetES2017 : Nat := 4

/-- The external world of the loader: the lazily loaded
`@angular/compiler-cli/linker` detector function, and the outcome of a
`loadEsmModule('@angular/localize/tools')` attempt (`none` models the
dynamic import throwing; loading of the linker entry points is required
and modelled as always succeeding). I18n plugin-creator handles are
opaque and identified by a `Nat`. -/
structure Env where
  detector : List Char → List Char → Bool
  i18nLoad : Option Nat

/-- The three module-level caches of webpack-loader.ts:27-39:
`needsLinking`, `linkerPluginCreator` and `i18nPluginCreators`.  The two
linker handles carry no observable data beyond their presence, so they
are modelled as `Option Unit`; a loaded detector always behaves as
`Env.detector`. -/
structure Caches where
  needsLinking : Option Unit
  linkerPluginCreator : Option Unit
  i18nPluginCreators : Option Nat

/-- Result of `requiresLinking`, instrumented with whether the external
detector was invoked and whether a load of the detector capability
occurred during this call. -/
structure LinkCheck where
  result : Bool
  detectorInvoked : Bool
  loadOccurred : Bool
  cache : Option Unit

/-- `requiresLinking(path, source)` (webpack-loader.ts:41-59): paths that
match the compiler/core pattern or end in `.ts`/`.tsx` are rejected
without consulting the detector; otherwise the detector capability is
loaded if absent and its verdict is returned. -/
def requiresLinking (env : Env) (cache : Option Unit) (path source : List Char) :
    LinkCheck :=
  if linkExcludeTest path then
    { result := false, detectorInvoked := false, loadOccurred := false, cache := cache }
  else
    { result := env.detector path source
      detectorInvoked := true
      loadOccurred := cache.isNone
      cache := some () }

/-- `angularLinker` sub-options (webpack-loader.ts:95-99); the
`linkerPluginCreator` function member is opaque and omitted. -/
structure AngularLinker where
  shouldLink : Bool
  jitMode : Bool
  deriving DecidableEq

/-- The `optimize` sub-options (webpack-loader.ts:17-21). -/
structure OptimizeOpts where
  looseEnums : Bool
  pureTopLevel : Bool
  wrapDecorators : Bool
  deriving DecidableEq

/-- The resolved `i18n` option (webpack-loader.ts:140-143): the caller's
opaque i18n configuration (a `Nat` id) spread together with the possibly
undefined plugin-creator set. -/
structure I18nOpts where
  config : Nat
  i18nPluginCreators : Option Nat
  deriving DecidableEq

/-- `AngularCustomOptions` (webpack-loader.ts:14-22). -/
structure AngularCustomOptions where
  forceAsyncTransformation : Bool
  forceES5 : Bool
  angularLinker : Option AngularLinker
  i18n : Option I18nOpts
  optimize : Option OptimizeOpts
  deriving DecidableEq

/-- A JavaScript value stored in the caller's raw loader options.  Plugin
arrays hold opaque function descriptors, of which only the length is
observable (`JSON.stringify` serialises such functions as `null`). -/
inductive RawVal where
  | str (s : List Char)
  | num (n : Int)
  | boolean (b : Bool)
  | null
  | pluginArr (len : Nat)
  deriving DecidableEq

/-- The raw caller options left over by the destructuring at
webpack-loader.ts:72: an ordered association list, preserving the
JavaScript object's key insertion order. -/
def RawOptions : Type := List (List Char × RawVal)

instance : DecidableEq RawOptions := by
  unfold RawOptions; infer_instance

/-- First-occurrence key lookup in a raw options object. -/
def rawLookup (k : List Char) : RawOptions → Option RawVal
  | [] => none
  | (k', v) :: rest => if k' = k then some v else rawLookup k rest

/-- `Array.isArray(rawOptions.plugins) && rawOptions.plugins.length > 0`
(webpack-loader.ts:74). -/
def rawPluginsNonEmpty (raw : RawOptions) : Bool :=
  match rawLookup "plugins".data raw with
  | some (RawVal.pluginArr len) => decide (len > 0)
  | _ => false

/-- The caller-supplied options destructured at webpack-loader.ts:72.
`i18n` and `optimize` are opaque truthy objects modelled by `Option Nat`
ids; `aot` is an optional boolean; `scriptTarget` an optional
`ScriptTarget` ordinal. -/
structure CallerOptions where
  i18n : Option Nat
  scriptTarget : Option Nat
  aot : Option Bool
  optimize : Option Nat
  rawOptions : RawOptions

/-- `factoryMeta` of a webpack module. -/
structure FactoryMeta where
  sideEffectFree : Option Bool

/-- A webpack module reference as seen from the loader context. -/
structure WebpackModule where
  factoryMeta : Option FactoryMeta

/-- The loader context (`this` inside `customOptions`). -/
structure LoaderContext where
  resourcePath : List Char
  moduleRef : Option WebpackModule

/-- `!!this._module?.factoryMeta?.sideEffectFree` (webpack-loader.ts:156). -/
def sideEffectFreeFlag (ctx : LoaderContext) : Bool :=
  match ctx.moduleRef with
  | none => false
  | some m =>
    match m.factoryMeta with
    | none => false
    | some fm => fm.sideEffectFree.getD false

/-- `jitMode: aot !== true` (webpack-loader.ts:97). -/
def jitModeOf (aot : Option Bool) : Bool := !(aot == some true)

/-! ### JSON serialisation for the cache identifier

`cacheIdentifier` is produced by `JSON.stringify` (webpack-loader.ts:166),
which serialises object keys in insertion order, drops function-valued and
`undefined`-valued properties of objects, and serialises functions inside
arrays as `null`.  Brace characters are written via `Char.ofNat` codes. -/

/-- The `{` character. -/
def lbraceC : Char := Char.ofNat 123

/-- The `}` character. -/
def rbraceC : Char := Char.ofNat 125

/-- The `"` character. -/
def quoteC : Char := Char.ofNat 34

/-- A JSON string literal; the modelled keys and values contain no
characters needing escaping. -/
def jsonStr (s : List Char) : List Char := quoteC :: (s ++ [quoteC])

/-- A JSON boolean literal. -/
def jsonBool (b : Bool) : List Char := if b then "true".data else "false".data

/-- Comma-separate a list of serialised fragments. -/
def jsonCommaSep : List (List Char) → List Char
  | [] => []
  | [x] => x
  | x :: y :: rest => x ++ ',' :: jsonCommaSep (y :: rest)

/-- A JSON object from already-serialised `key ↦ fragment` pairs, in the
given (insertion) order. -/
def jsonObj (fields : List (List Char × List Char)) : List Char :=
  lbraceC :: (jsonCommaSep (fields.map fun kv => jsonStr kv.1 ++ ':' :: kv.2) ++ [rbraceC])

/-- A JSON array from already-serialised element fragments. -/
def jsonArr (elems : List (List Char)) : List Char :=
  '[' :: (jsonCommaSep elems ++ [']'])

/-- Serialise one raw caller-option value as `JSON.stringify` does: plugin
arrays are arrays of functions, which stringify as `null` elements. -/
def stringifyRawVal : RawVal → List Char
  | RawVal.str s => jsonStr s
  | RawVal.num n => (toString n).data
  | RawVal.boolean b => jsonBool b
  | RawVal.null => "null".data
  | RawVal.pluginArr len => jsonArr (List.replicate len "null".data)

/-- Serialise the raw caller options in key insertion order. -/
def stringifyRawOptions (raw : RawOptions) : List Char :=
  jsonObj (raw.map fun kv => (kv.1, stringifyRawVal kv.2))

/-- Serialised `angularLinker`: its `linkerPluginCreator` member is a
function and is dropped by `JSON.stringify`. -/
def stringifyLinker (l : AngularLinker) : List Char :=
  jsonObj [("shouldLink".data, jsonBool l.shouldLink), ("jitMode".data, jsonBool l.jitMode)]

/-- Serialised resolved `i18n` option: the opaque caller configuration is
rendered through its id; the plugin-creator set is a module namespace
object rendered as an id or dropped when `undefined`. -/
def stringifyI18n (o : I18nOpts) : List Char :=
  jsonObj
    (("config".data, (toString o.config).data) ::
      match o.i18nPluginCreators with
      | none => []
      | some h => [("i18nPluginCreators".data, (toString h).data)])

/-- Serialised `optimize` sub-options. -/
def stringifyOptimize (o : OptimizeOpts) : List Char :=
  jsonObj
    [("looseEnums".data, jsonBool o.looseEnums),
     ("pureTopLevel".data, jsonBool o.pureTopLevel),
     ("wrapDecorators".data, jsonBool o.wrapDecorators)]

/-- Serialised `AngularCustomOptions`, with keys in the insertion order of
webpack-loader.ts:76-81 (`optimize` is added last, at line 149);
`undefined`-valued keys are dropped as `JSON.stringify` does. -/
def stringifyCustomOptions (co : AngularCustomOptions) : List Char :=
  jsonObj
    ([("forceAsyncTransformation".data, jsonBool co.forceAsyncTransformation),
      ("forceES5".data, jsonBool co.forceES5)]
     ++ (match co.angularLinker with
         | none => []
         | some l => [("angularLinker".data, stringifyLinker l)])
     ++ (match co.i18n with
         | none => []
         | some o => [("i18n".data, stringifyI18n o)])
     ++ (match co.optimize with
         | none => []
         | some o => [("optimize".data, stringifyOptimize o)]))

/-- The frozen `baseOptions` object (webpack-loader.ts:62-69), serialised. -/
def stringifyBaseOptions : List Char :=
  jsonObj
    [("babelrc".data, jsonBool false),
     ("configFile".data, jsonBool false),
     ("compact".data, jsonBool false),
     ("cacheCompression".data, jsonBool false),
     ("sourceType".data, jsonStr "unambiguous".data),
     ("inputSourceMap".data, jsonBool false)]

/-- `cacheIdentifier` (webpack-loader.ts:166-171): `JSON.stringify` of
the four inputs `buildAngular` (package version), `customOptions`,
`baseOptions` and `rawOptions`, in that fixed key order. -/
def cacheIdentifier (version : List Char) (co : AngularCustomOptions)
    (raw : RawOptions) : List Char :=
  jsonObj
    [("buildAngular".data, jsonStr version),
     ("customOptions".data, stringifyCustomOptions co),
     ("baseOptions".data, stringifyBaseOptions),
     ("rawOptions".data, stringifyRawOptions raw)]

/-! ### The option resolver (`customOptions`, webpack-loader.ts:72-181) -/

/-- Outcome of the ES-target analysis (webpack-loader.ts:103-117). -/
structure EsAnalysis where
  forceES5 : Bool
  forceAsyncTransformation : Bool
  deriving DecidableEq

/-- webpack-loader.ts:104-115: below ES2015 forces ES5; otherwise, for an
ES2017+ target or a compiled-JS extension, async downlevelling is forced
when the path is not pre-downlevelled and the source mentions `async`. -/
def analyzeEsTarget (scriptTarget : Option Nat) (path source : List Char) :
    EsAnalysis :=
  match scriptTarget with
  | none => { forceES5 := false, forceAsyncTransformation := false }
  | some esTarget =>
    if esTarget < scriptTargetES2015 then
      { forceES5 := true, forceAsyncTransformation := false }
    else if decide (scriptTargetES2017 ≤ esTarget) || jsExtTest path then
      { forceES5 := false
        forceAsyncTransformation :=
          !esm2015DirTest path && strIncludes "async".data source }
    else
      { forceES5 := false, forceAsyncTransformation := false }

/-- Outcome of the i18n analysis (webpack-loader.ts:119-145), instrumented
with whether a load of the locale-plugin-creator capability was attempted. -/
structure I18nAnalysis where
  i18n : Option I18nOpts
  cache : Option Nat
  attempted : Bool
  applied : Bool
  deriving DecidableEq

/-- webpack-loader.ts:119-145: the branch fires when the caller supplied
an i18n config, the path is outside the framework's compiler/localize
packages, and the source contains `$localize`.  An absent plugin-creator
cache triggers a load attempt whose failure is swallowed (the cache then
stays empty); the possibly-undefined creator set is attached to the
resolved i18n option. -/
def analyzeI18n (i18nLoad : Option Nat) (cache : Option Nat)
    (i18nOption : Option Nat) (path source : List Char) : I18nAnalysis :=
  match i18nOption with
  | none => { i18n := none, cache := cache, attempted := false, applied := false }
  | some cfg =>
    if !i18nExcludeTest path && strIncludes "$localize".data source then
      match cache with
      | some c =>
        { i18n := some { config := cfg, i18nPluginCreators := some c }
          cache := some c, attempted := false, applied := true }
      | none =>
        { i18n := some { config := cfg, i18nPluginCreators := i18nLoad }
          cache := i18nLoad, attempted := true, applied := true }
    else
      { i18n := none, cache := cache, attempted := false, applied := false }

/-- The finalised loader options (webpack-loader.ts:163-178): the frozen
base options spread with the raw caller options, the cache identifier,
and — when no processing is needed — the bypass `ignore: [() => true]`
entry, modelled by the `ignoreAll` flag. -/
structure LoaderOptions where
  rawOptions : RawOptions
  cacheIdentifier : List Char
  ignoreAll : Bool
  deriving DecidableEq

/-- Everything `customOptions` returns or mutates, plus instrumentation
of the externally observable load/invoke effects. -/
structure ResolveOut where
  custom : AngularCustomOptions
  loader : LoaderOptions
  caches : Caches
  shouldProcess : Bool
  detectorInvoked : Bool
  linkerLoadOccurred : Bool
  i18nLoadAttempted : Bool

/-- The `customOptions` callback (webpack-loader.ts:72-181), as a pure
function of the external environment, the module-level caches, the loader
context, the file's source text, the caller options and the build tool's
package version. -/
def resolveCustomOptions (env : Env) (st : Caches) (ctx : LoaderContext)
    (source : List Char) (opts : CallerOptions) (version : List Char) :
    ResolveOut :=
  -- line 74: must process the file if plugins are added
  let shouldProcess0 := rawPluginsNonEmpty opts.rawOptions
  -- lines 83-101: analyse the file for linking
  let lc := requiresLinking env st.needsLinking ctx.resourcePath source
  let angularLinker : Option AngularLinker :=
    if lc.result then some { shouldLink := true, jitMode := jitModeOf opts.aot } else none
  let linkerCache := if lc.result then some () else st.linkerPluginCreator
  let linkerLoadOccurred := lc.result && st.linkerPluginCreator.isNone
  let shouldProcess1 := if lc.result then true else shouldProcess0
  -- lines 103-117: analyse for ES target processing
  let es := analyzeEsTarget opts.scriptTarget ctx.resourcePath source
  let shouldProcess2 :=
    if opts.scriptTarget.isSome then
      shouldProcess1 || es.forceAsyncTransformation || es.forceES5
    else shouldProcess1
  -- lines 119-145: analyse for i18n inlining
  let ia := analyzeI18n env.i18nLoad st.i18nPluginCreators opts.i18n
    ctx.resourcePath source
  let shouldProcess3 := if ia.applied then true else shouldProcess2
  -- lines 147-160: optimization flags
  let optimizeOpts : Option OptimizeOpts :=
    match opts.optimize with
    | some _ =>
      let angularPackage := nodeModulesAngularTest ctx.resourcePath
      some { looseEnums := angularPackage, pureTopLevel := angularPackage
             wrapDecorators := sideEffectFreeFlag ctx }
    | none => none
  let shouldProcess4 := if opts.optimize.isSome then true else shouldProcess3
  let custom : AngularCustomOptions :=
    { forceAsyncTransformation := es.forceAsyncTransformation
      forceES5 := es.forceES5
      angularLinker := angularLinker
      i18n := ia.i18n
      optimize := optimizeOpts }
  -- lines 162-178: loader options, cache identifier and the bypass
  let loader : LoaderOptions :=
    { rawOptions := opts.rawOptions
      cacheIdentifier := cacheIdentifier version custom opts.rawOptions
      ignoreAll := !shouldProcess4 }
  { custom := custom
    loader := loader
    caches :=
      { needsLinking := lc.cache
        linkerPluginCreator := linkerCache
        i18nPluginCreators := ia.cache }
    shouldProcess := shouldProcess4
    detectorInvoked := lc.detectorInvoked
    linkerLoadOccurred := linkerLoadOccurred
    i18nLoadAttempted := ia.attempted }

/-! ### The stage assembler (`config`, webpack-loader.ts:182-231) -/

/-- Severity tags accepted by the primary stage's diagnostics callback. -/
inductive DiagnosticType where
  | error
  | info
  | warning
  deriving DecidableEq

/-- The two webpack channels a diagnostic can be routed to. -/
inductive DiagnosticAction where
  | emitError
  | emitWarning
  deriving DecidableEq

/-- `diagnosticReporter` (webpack-loader.ts:215-226): `error` is emitted
as a build error; `info` falls through to the `warning` case because
webpack has no informational channel. -/
def diagnosticReporter : DiagnosticType → DiagnosticAction
  | DiagnosticType.error => DiagnosticAction.emitError
  | DiagnosticType.info => DiagnosticAction.emitWarning
  | DiagnosticType.warning => DiagnosticAction.emitWarning

/-- A babel plugin descriptor as pushed by `config`: the four build
plugins of webpack-loader.ts:186-198 (with their option parameters) or an
opaque pre-existing plugin. -/
inductive PluginDesc where
  | pureTopLevelFunctions
  | elideAngularMetadata
  | adjustTypescriptEnums (loose : Bool)
  | adjustStaticClassMembers (wrapDecorators : Bool)
  | external (id : Nat)
  deriving DecidableEq

/-- A babel preset descriptor: the application preset of
webpack-loader.ts:209-228, carrying the resolved custom options (its
`diagnosticReporter` member is the function modelled above), or an opaque
pre-existing preset. -/
inductive PresetDesc where
  | application (opts : AngularCustomOptions)
  | external (id : Nat)
  deriving DecidableEq

/-- The subset of the babel configuration touched by `config`. -/
structure BabelConfigOptions where
  plugins : Option (List PluginDesc)
  presets : Option (List PresetDesc)
  deriving DecidableEq

/-- The `config` callback (webpack-loader.ts:182-231): starting from
`options.plugins ?? []`, the optimisation stages are appended in a fixed
order, and the application preset is appended after all pre-existing
presets. -/
def configStep (options : BabelConfigOptions) (customOptions : AngularCustomOptions) :
    BabelConfigOptions :=
  let plugins := options.plugins.getD []
  let plugins :=
    match customOptions.optimize with
    | some o =>
      let plugins :=
        if o.pureTopLevel then plugins ++ [PluginDesc.pureTopLevelFunctions]
        else plugins
      plugins ++
        [PluginDesc.elideAngularMetadata,
         PluginDesc.adjustTypescriptEnums o.looseEnums,
         PluginDesc.adjustStaticClassMembers o.wrapDecorators]
    | none => plugins
  { plugins := some plugins
    presets := some ((options.presets.getD []) ++ [PresetDesc.application customOptions]) }

/-! ### Interleaving model of the lazy capability load

The loader caches each capability in a module-level variable with the
unguarded pattern `if (!cache) { cache = await load(); }`
(webpack-loader.ts:48-56 and 85-93).  JavaScript is single-threaded but a
resolution suspends at the `await`, so a concurrent resolution can observe
the still-empty cache between one caller's check and its assignment.  The
machine below models one capability: each task (a file resolution that
reaches the load site) is `ready` (about to execute the cache check),
`loading` (suspended inside the `await` after observing an empty cache),
or `done`; completing a load increments `loadCount` and fills the cache. -/

/-- Program counter of one resolution at the capability-load site. -/
inductive TaskPC where
  | ready
  | loading
  | done
  deriving DecidableEq

/-- Shared state: the module-level cache variable, the number of completed
external loads, and the per-task program counters. -/
structure RaceState where
  cacheLoaded : Bool
  loadCount : Nat
  tasks : List TaskPC
  deriving DecidableEq

/-- Run task `i` for one atomic segment (the code between two suspension
points): a `ready` task executes the `if (!cache)` check and either skips
the load or enters the `await`; a `loading` task completes its load,
incrementing the load count and assigning the cache. -/
def stepTask (s : RaceState) (i : Nat) : RaceState :=
  match s.tasks.get? i with
  | some TaskPC.ready =>
    if s.cacheLoaded then { s with tasks := s.tasks.set i TaskPC.done }
    else { s with tasks := s.tasks.set i TaskPC.loading }
  | some TaskPC.loading =>
    { s with cacheLoaded := true, loadCount := s.loadCount + 1
             tasks := s.tasks.set i TaskPC.done }
  | _ => s

/-- Run a schedule: a list of task indices, each executed for one atomic
segment in order. -/
def runSched (s : RaceState) : List Nat → RaceState
  | [] => s
  | i :: rest => runSched (stepTask s i) rest

/-- Initial state for `n` concurrent first-time resolutions: empty cache,
no loads, all tasks about to execute the cache check. -/
def initRace (n : Nat) : RaceState :=
  { cacheLoaded := false, loadCount := 0, tasks := List.replicate n TaskPC.ready }

/-! ### Helper lemmas -/

theorem analyzeEsTarget_forceES5_iff (st : Option Nat) (p s : List Char) :
    (analyzeEsTarget st p s).forceES5 = true ↔
      ∃ t, st = some t ∧ t < scriptTargetES2015 := by
  unfold analyzeEsTarget
  cases st with
  | none => simp
  | some t =>
    by_cases h1 : t < scriptTargetES2015
    · simp [h1]
    · simp only [h1, if_false]
      constructor
      · intro h
        exfalso
        revert h
        split <;> simp
      · rintro ⟨t', ht', hlt⟩
        exact absurd (Option.some_injective _ ht' ▸ hlt) h1

theorem analyzeEsTarget_forceAsync_iff (st : Option Nat) (p s : List Char) :
    (analyzeEsTarget st p s).forceAsyncTransformation = true ↔
      ∃ t, st = some t ∧ ¬t < scriptTargetES2015 ∧
        (scriptTargetES2017 ≤ t ∨ jsExtTest p = true) ∧
        strIncludes "async".data s = true ∧ esm2015DirTest p = false := by
  unfold analyzeEsTarget
  cases st with
  | none => simp
  | some t =>
    by_cases h1 : t < scriptTargetES2015
    · simp [h1]
    · by_cases h2 : (decide (scriptTargetES2017 ≤ t) || jsExtTest p) = true
      · simp only [h1, if_false, h2, if_true]
        simp only [Bool.or_eq_true, decide_eq_true_eq] at h2
        simp only [Bool.and_eq_true, Bool.not_eq_true']
        constructor
        · rintro ⟨hesm, hasync⟩
          exact ⟨t, rfl, h1, h2, hasync, hesm⟩
        · rintro ⟨t', ht', -, -, hasync, hesm⟩
          cases Option.some_injective _ ht'
          exact ⟨hesm, hasync⟩
      · simp only [h1, if_false, h2, if_false]
        simp only [Bool.or_eq_true, decide_eq_true_eq] at h2
        push_neg at h2
        constructor
        · intro h
          simp at h
        · rintro ⟨t', ht', -, hcond, -⟩
          cases Option.some_injective _ ht'
          rcases hcond with hc | hc
          · exact absurd hc (Nat.not_le_of_lt h2.1)
          · exact absurd hc h2.2

theorem analyzeEsTarget_none (p s : List Char) :
    analyzeEsTarget none p s = { forceES5 := false, forceAsyncTransformation := false } :=
  rfl

theorem analyzeEsTarget_not_both (st : Option Nat) (p s : List Char) :
    ((analyzeEsTarget st p s).forceES5 &&
      (analyzeEsTarget st p s).forceAsyncTransformation) = false := by
  unfold analyzeEsTarget
  cases st with
  | none => rfl
  | some t =>
    by_cases h1 : t < scriptTargetES2015
    · simp [h1]
    · simp only [h1, if_false]
      split <;> simp

theorem analyzeI18n_isSome_eq_applied (l c i : Option Nat) (p s : List Char) :
    (analyzeI18n l c i p s).i18n.isSome = (analyzeI18n l c i p s).applied := by
  cases i with
  | none => rfl
  | some cfg =>
    simp only [analyzeI18n]
    split
    · cases c <;> rfl
    · rfl

/-- Projection of the resolver output: the custom options record. -/
theorem resolve_custom_eq (env : Env) (st : Caches) (ctx : LoaderContext)
    (source : List Char) (opts : CallerOptions) (version : List Char) :
    (resolveCustomOptions env st ctx source opts version).custom =
      { forceAsyncTransformation :=
          (analyzeEsTarget opts.scriptTarget ctx.resourcePath source).forceAsyncTransformation
        forceES5 := (analyzeEsTarget opts.scriptTarget ctx.resourcePath source).forceES5
        angularLinker :=
          if (requiresLinking env st.needsLinking ctx.resourcePath source).result then
            some { shouldLink := true, jitMode := jitModeOf opts.aot }
          else none
        i18n := (analyzeI18n env.i18nLoad st.i18nPluginCreators opts.i18n
          ctx.resourcePath source).i18n
        optimize :=
          match opts.optimize with
          | some _ =>
            some { looseEnums := nodeModulesAngularTest ctx.resourcePath
                   pureTopLevel := nodeModulesAngularTest ctx.resourcePath
                   wrapDecorators := sideEffectFreeFlag ctx }
          | none => none } :=
  rfl

/-- Projection of the resolver output: the bypass flag negates
`shouldProcess`. -/
theorem resolve_ignoreAll_eq (env : Env) (st : Caches) (ctx : LoaderContext)
    (source : List Char) (opts : CallerOptions) (version : List Char) :
    (resolveCustomOptions env st ctx source opts version).loader.ignoreAll =
      !(resolveCustomOptions env st ctx source opts version).shouldProcess :=
  rfl

/-- The accumulated `shouldProcess` flag equals the disjunction of the
five contributing analyses and the explicit-plugins check. -/
theorem resolve_shouldProcess_eq (env : Env) (st : Caches) (ctx : LoaderContext)
    (source : List Char) (opts : CallerOptions) (version : List Char) :
    (resolveCustomOptions env st ctx source opts version).shouldProcess =
      (rawPluginsNonEmpty opts.rawOptions
        || (requiresLinking env st.needsLinking ctx.resourcePath source).result
        || (analyzeEsTarget opts.scriptTarget ctx.resourcePath source).forceAsyncTransformation
        || (analyzeEsTarget opts.scriptTarget ctx.resourcePath source).forceES5
        || (analyzeI18n env.i18nLoad st.i18nPluginCreators opts.i18n
              ctx.resourcePath source).applied
        || opts.optimize.isSome) := by
  unfold resolveCustomOptions
  cases hopt : opts.optimize <;> cases hst : opts.scriptTarget <;>
    cases hlc : (requiresLinking env st.needsLinking ctx.resourcePath source).result <;>
    cases hia : (analyzeI18n env.i18nLoad st.i18nPluginCreators opts.i18n
      ctx.resourcePath source).applied <;>
    simp [hopt, hst, hlc, hia, analyzeEsTarget_none]

/-! ### Claim theorems -/

/-- C1: for every invocation of the option resolver, `shouldProcess` is
true iff at least one of {caller plugins non-empty, linking required,
`forceAsyncTransformation`, `forceES5`, localization applied,
optimization requested} holds, and the returned loader options carry the
bypass instruction (`ignore: [() => true]`) exactly when `shouldProcess`
is false. -/
theorem shouldProcess_iff_contributors (env : Env) (st : Caches)
    (ctx : LoaderContext) (source : List Char) (opts : CallerOptions)
    (version : List Char) :
    (resolveCustomOptions env st ctx source opts version).shouldProcess =
      (rawPluginsNonEmpty opts.rawOptions
        || (resolveCustomOptions env st ctx source opts version).custom.angularLinker.isSome
        || (resolveCustomOptions env st ctx source opts version).custom.forceAsyncTransformation
        || (resolveCustomOptions env st ctx source opts version).custom.forceES5
        || (resolveCustomOptions env st ctx source opts version).custom.i18n.isSome
        || (resolveCustomOptions env st ctx source opts version).custom.optimize.isSome) ∧
    (resolveCustomOptions env st ctx source opts version).loader.ignoreAll =
      !(resolveCustomOptions env st ctx source opts version).shouldProcess := by
  refine ⟨?_, resolve_ignoreAll_eq env st ctx source opts version⟩
  rw [resolve_shouldProcess_eq, resolve_custom_eq]
  simp only [analyzeI18n_isSome_eq_applied]
  cases hlc : (requiresLinking env st.needsLinking ctx.resourcePath source).result <;>
    cases hopt : opts.optimize <;> simp [hlc, hopt]

/-- C2: `requiresLinking` returns false without invoking the external
detector for framework-internal compiler/core paths and TypeScript
sources, and for every other (path, source) pair its result is the
external detector's verdict for that pair (which is then invoked). -/
theorem requiresLinking_excluded_or_detector (env : Env) (cache : Option Unit)
    (path source : List Char) :
    (requiresLinking env cache path source).result =
      (if linkExcludeTest path then false else env.detector path source) ∧
    (requiresLinking env cache path source).detectorInvoked = !linkExcludeTest path := by
  unfold requiresLinking
  by_cases h : linkExcludeTest path = true <;> simp [h]

/-- C9: `forceES5` is true iff the target language level was supplied
and is strictly below `ScriptTarget.ES2015`. -/
theorem forceES5_iff_target_below_es2015 (env : Env) (st : Caches)
    (ctx : LoaderContext) (source : List Char) (opts : CallerOptions)
    (version : List Char) :
    (resolveCustomOptions env st ctx source opts version).custom.forceES5 = true ↔
      ∃ t, opts.scriptTarget = some t ∧ t < scriptTargetES2015 := by
  rw [resolve_custom_eq]
  exact analyzeEsTarget_forceES5_iff opts.scriptTarget ctx.resourcePath source

/-- C10: the ES-target analysis drives `forceES5` and
`forceAsyncTransformation` through mutually exclusive branches, so the
resolver never returns both flags set. -/
theorem forceES5_forceAsync_exclusive (env : Env) (st : Caches)
    (ctx : LoaderContext) (source : List Char) (opts : CallerOptions)
    (version : List Char) :
    ((resolveCustomOptions env st ctx source opts version).custom.forceES5 &&
      (resolveCustomOptions env st ctx source opts version).custom.forceAsyncTransformation)
      = false := by
  rw [resolve_custom_eq]
  exact analyzeEsTarget_not_both opts.scriptTarget ctx.resourcePath source

/-- C3 fails as stated: with target `ES5`, a `.js` path, a source
containing `async` and no pre-downlevelled directory in the path, every
condition of the claimed iff's right-hand side holds, yet the resolver
leaves `forceAsyncTransformation` false (the below-ES2015 branch wins). -/
theorem forceAsync_claim_counterexample :
    (resolveCustomOptions
        { detector := fun _ _ => false, i18nLoad := none }
        { needsLinking := none, linkerPluginCreator := none, i18nPluginCreators := none }
        { resourcePath := "/proj/dist/a.js".data, moduleRef := none }
        "async function f()".data
        { i18n := none, scriptTarget := some scriptTargetES5, aot := none,
          optimize := none, rawOptions := [] }
        "13.0.0".data).custom.forceAsyncTransformation = false ∧
    (some scriptTargetES5 : Option Nat).isSome = true ∧
    jsExtTest "/proj/dist/a.js".data = true ∧
    strIncludes "async".data "async function f()".data = true ∧
    esm2015DirTest "/proj/dist/a.js".data = false := by
  decide

/-- C3 (amended): `forceAsyncTransformation` is true iff the target level
is supplied, is at least `ES2015`, meets the high-target-or-plain-JS
condition, the source text contains `async`, and the path is not under a
pre-downlevelled `esm2015`-style directory. -/
theorem forceAsync_characterization (env : Env) (st : Caches)
    (ctx : LoaderContext) (source : List Char) (opts : CallerOptions)
    (version : List Char) :
    (resolveCustomOptions env st ctx source opts version).custom.forceAsyncTransformation
      = true ↔
      ∃ t, opts.scriptTarget = some t ∧ ¬t < scriptTargetES2015 ∧
        (scriptTargetES2017 ≤ t ∨ jsExtTest ctx.resourcePath = true) ∧
        strIncludes "async".data source = true ∧
        esm2015DirTest ctx.resourcePath = false := by
  rw [resolve_custom_eq]
  exact analyzeEsTarget_forceAsync_iff opts.scriptTarget ctx.resourcePath source

/-- Projection of the resolver output: the i18n load-attempt flag. -/
theorem resolve_i18nAttempted_eq (env : Env) (st : Caches) (ctx : LoaderContext)
    (source : List Char) (opts : CallerOptions) (version : List Char) :
    (resolveCustomOptions env st ctx source opts version).i18nLoadAttempted =
      (analyzeI18n env.i18nLoad st.i18nPluginCreators opts.i18n
        ctx.resourcePath source).attempted :=
  rfl

/-- Projection of the resolver output: the i18n plugin-creator cache. -/
theorem resolve_i18nCache_eq (env : Env) (st : Caches) (ctx : LoaderContext)
    (source : List Char) (opts : CallerOptions) (version : List Char) :
    (resolveCustomOptions env st ctx source opts version).caches.i18nPluginCreators =
      (analyzeI18n env.i18nLoad st.i18nPluginCreators opts.i18n
        ctx.resourcePath source).cache :=
  rfl

/-- Projection of the resolver output: the cache identifier is built from
the version, the resolved custom options and the raw caller options. -/
theorem resolve_cacheIdentifier_eq (env : Env) (st : Caches) (ctx : LoaderContext)
    (source : List Char) (opts : CallerOptions) (version : List Char) :
    (resolveCustomOptions env st ctx source opts version).loader.cacheIdentifier =
      cacheIdentifier version
        (resolveCustomOptions env st ctx source opts version).custom
        opts.rawOptions :=
  rfl

/-- Shared concrete sample inputs for the witness theorems. -/
def sampleEnv : Env := { detector := fun _ _ => false, i18nLoad := none }

/-- A sample environment whose locale-tools load succeeds with handle 5. -/
def sampleEnvI18nOk : Env := { detector := fun _ _ => false, i18nLoad := some 5 }

/-- Empty module-level caches (process start). -/
def sampleCaches : Caches :=
  { needsLinking := none, linkerPluginCreator := none, i18nPluginCreators := none }

/-- A loader context for an application file outside the framework
namespace, with no module side-effect metadata. -/
def sampleCtx : LoaderContext :=
  { resourcePath := "/proj/src/main.js".data, moduleRef := none }

/-- C5: when optimization is requested, `looseEnums` and `pureTopLevel`
are both set exactly to the framework-dependency-namespace
classification of the path (`node_modules/@angular/`), and
`wrapDecorators` equals the host bundler's side-effect-free marking,
independently of that classification. -/
theorem optimize_flags_classification (env : Env) (st : Caches)
    (ctx : LoaderContext) (source : List Char) (opts : CallerOptions)
    (version : List Char) (oid : Nat) (hopt : opts.optimize = some oid) :
    (resolveCustomOptions env st ctx source opts version).custom.optimize =
      some { looseEnums := nodeModulesAngularTest ctx.resourcePath
             pureTopLevel := nodeModulesAngularTest ctx.resourcePath
             wrapDecorators := sideEffectFreeFlag ctx } ∧
    (nodeModulesAngularTest ctx.resourcePath = true →
      (resolveCustomOptions env st ctx source opts version).custom.optimize =
        some { looseEnums := true, pureTopLevel := true
               wrapDecorators := sideEffectFreeFlag ctx }) ∧
    (nodeModulesAngularTest ctx.resourcePath = false →
      (resolveCustomOptions env st ctx source opts version).custom.optimize =
        some { looseEnums := false, pureTopLevel := false
               wrapDecorators := sideEffectFreeFlag ctx }) := by
  rw [resolve_custom_eq, hopt]
  exact ⟨rfl, fun h => by rw [h], fun h => by rw [h]⟩

/-- Witness for C5 at concrete inputs. -/
theorem optimize_flags_classification_witness :
    ({ i18n := none, scriptTarget := none, aot := none, optimize := some 1,
       rawOptions := [] } : CallerOptions).optimize = some 1 ∧
    ((resolveCustomOptions sampleEnv sampleCaches sampleCtx "let x = 1".data
        { i18n := none, scriptTarget := none, aot := none, optimize := some 1,
          rawOptions := [] } "13.0.0".data).custom.optimize =
      some { looseEnums := nodeModulesAngularTest sampleCtx.resourcePath
             pureTopLevel := nodeModulesAngularTest sampleCtx.resourcePath
             wrapDecorators := sideEffectFreeFlag sampleCtx } ∧
    (nodeModulesAngularTest sampleCtx.resourcePath = true →
      (resolveCustomOptions sampleEnv sampleCaches sampleCtx "let x = 1".data
        { i18n := none, scriptTarget := none, aot := none, optimize := some 1,
          rawOptions := [] } "13.0.0".data).custom.optimize =
        some { looseEnums := true, pureTopLevel := true
               wrapDecorators := sideEffectFreeFlag sampleCtx }) ∧
    (nodeModulesAngularTest sampleCtx.resourcePath = false →
      (resolveCustomOptions sampleEnv sampleCaches sampleCtx "let x = 1".data
        { i18n := none, scriptTarget := none, aot := none, optimize := some 1,
          rawOptions := [] } "13.0.0".data).custom.optimize =
        some { looseEnums := false, pureTopLevel := false
               wrapDecorators := sideEffectFreeFlag sampleCtx })) :=
  ⟨rfl, optimize_flags_classification sampleEnv sampleCaches sampleCtx
    "let x = 1".data
    { i18n := none, scriptTarget := none, aot := none, optimize := some 1,
      rawOptions := [] } "13.0.0".data 1 rfl⟩

/-- C6: a failed lazy load of the locale-plugin-creator capability is
caught; the capability cache is left empty, localization is still applied
(with an undefined creator set) and `shouldProcess` is set.  A load is
attempted exactly when the file is localization-eligible and the cache is
empty — so after a failure the load is re-attempted on the next eligible
file — and a successful load is memoized into the cache and attached. -/
theorem i18n_load_failure_tolerated (env : Env) (st : Caches)
    (ctx : LoaderContext) (source : List Char) (opts : CallerOptions)
    (version : List Char) (cfg : Nat) (hcfg : opts.i18n = some cfg) :
    (resolveCustomOptions env st ctx source opts version).i18nLoadAttempted =
      ((!i18nExcludeTest ctx.resourcePath && strIncludes "$localize".data source)
        && st.i18nPluginCreators.isNone) ∧
    (st.i18nPluginCreators = none →
      (!i18nExcludeTest ctx.resourcePath && strIncludes "$localize".data source) = true →
      (resolveCustomOptions env st ctx source opts version).caches.i18nPluginCreators =
        env.i18nLoad ∧
      (resolveCustomOptions env st ctx source opts version).shouldProcess = true ∧
      (resolveCustomOptions env st ctx source opts version).custom.i18n =
        some { config := cfg, i18nPluginCreators := env.i18nLoad }) := by
  constructor
  · rw [resolve_i18nAttempted_eq, hcfg]
    simp only [analyzeI18n]
    cases he : (!i18nExcludeTest ctx.resourcePath && strIncludes "$localize".data source) with
    | false => simp [he]
    | true =>
      simp only [he, if_true]
      cases hc : st.i18nPluginCreators <;> simp [hc]
  · intro hc he
    refine ⟨?_, ?_, ?_⟩
    · rw [resolve_i18nCache_eq, hcfg]
      simp [analyzeI18n, he, hc]
    · rw [resolve_shouldProcess_eq, hcfg]
      simp [analyzeI18n, he, hc]
    · rw [resolve_custom_eq]
      simp [analyzeI18n, hcfg, he, hc]

/-- Witness for C6 at concrete inputs: a failing load on an eligible file. -/
theorem i18n_load_failure_tolerated_witness :
    ({ i18n := some 7, scriptTarget := none, aot := none, optimize := none,
       rawOptions := [] } : CallerOptions).i18n = some 7 ∧
    ((resolveCustomOptions sampleEnv sampleCaches sampleCtx
        "const m = $localize `hi`".data
        { i18n := some 7, scriptTarget := none, aot := none, optimize := none,
          rawOptions := [] } "13.0.0".data).i18nLoadAttempted =
      ((!i18nExcludeTest sampleCtx.resourcePath &&
          strIncludes "$localize".data "const m = $localize `hi`".data)
        && sampleCaches.i18nPluginCreators.isNone) ∧
    (sampleCaches.i18nPluginCreators = none →
      (!i18nExcludeTest sampleCtx.resourcePath &&
        strIncludes "$localize".data "const m = $localize `hi`".data) = true →
      (resolveCustomOptions sampleEnv sampleCaches sampleCtx
        "const m = $localize `hi`".data
        { i18n := some 7, scriptTarget := none, aot := none, optimize := none,
          rawOptions := [] } "13.0.0".data).caches.i18nPluginCreators =
        sampleEnv.i18nLoad ∧
      (resolveCustomOptions sampleEnv sampleCaches sampleCtx
        "const m = $localize `hi`".data
        { i18n := some 7, scriptTarget := none, aot := none, optimize := none,
          rawOptions := [] } "13.0.0".data).shouldProcess = true ∧
      (resolveCustomOptions sampleEnv sampleCaches sampleCtx
        "const m = $localize `hi`".data
        { i18n := some 7, scriptTarget := none, aot := none, optimize := none,
          rawOptions := [] } "13.0.0".data).custom.i18n =
        some { config := 7, i18nPluginCreators := sampleEnv.i18nLoad })) :=
  ⟨rfl, i18n_load_failure_tolerated sampleEnv sampleCaches sampleCtx
    "const m = $localize `hi`".data
    { i18n := some 7, scriptTarget := none, aot := none, optimize := none,
      rawOptions := [] } "13.0.0".data 7 rfl⟩

/-- C7: with optimization enabled, `config` appends the optimisation
stages in the fixed order pure-top-level annotator (only if
`pureTopLevel`), metadata elision, enum adjustment parameterised by
`looseEnums`, then static-class-member adjustment parameterised by
`wrapDecorators`; and the application preset, carrying the full resolved
options, is appended after all pre-existing presets. -/
theorem configStep_stage_order (options : BabelConfigOptions)
    (co : AngularCustomOptions) (o : OptimizeOpts) (hopt : co.optimize = some o) :
    (configStep options co).plugins =
      some ((options.plugins.getD []) ++
        (if o.pureTopLevel then [PluginDesc.pureTopLevelFunctions] else []) ++
        [PluginDesc.elideAngularMetadata,
         PluginDesc.adjustTypescriptEnums o.looseEnums,
         PluginDesc.adjustStaticClassMembers o.wrapDecorators]) ∧
    (configStep options co).presets =
      some ((options.presets.getD []) ++ [PresetDesc.application co]) := by
  unfold configStep
  rw [hopt]
  refine ⟨?_, rfl⟩
  cases hp : o.pureTopLevel <;> simp [hp]

/-- Witness for C7 at concrete inputs. -/
theorem configStep_stage_order_witness :
    ({ forceAsyncTransformation := false, forceES5 := false,
       angularLinker := none, i18n := none,
       optimize := some { looseEnums := true, pureTopLevel := true
                          wrapDecorators := false } } :
        AngularCustomOptions).optimize =
      some { looseEnums := true, pureTopLevel := true, wrapDecorators := false } ∧
    ((configStep
        { plugins := some [PluginDesc.external 0]
          presets := some [PresetDesc.external 1] }
        { forceAsyncTransformation := false, forceES5 := false,
          angularLinker := none, i18n := none,
          optimize := some { looseEnums := true, pureTopLevel := true
                             wrapDecorators := false } }).plugins =
      some ((({ plugins := some [PluginDesc.external 0]
                presets := some [PresetDesc.external 1] } :
            BabelConfigOptions).plugins.getD []) ++
        (if ({ looseEnums := true, pureTopLevel := true,
               wrapDecorators := false } : OptimizeOpts).pureTopLevel then
          [PluginDesc.pureTopLevelFunctions] else []) ++
        [PluginDesc.elideAngularMetadata,
         PluginDesc.adjustTypescriptEnums
           ({ looseEnums := true, pureTopLevel := true,
              wrapDecorators := false } : OptimizeOpts).looseEnums,
         PluginDesc.adjustStaticClassMembers
           ({ looseEnums := true, pureTopLevel := true,
              wrapDecorators := false } : OptimizeOpts).wrapDecorators]) ∧
    (configStep
        { plugins := some [PluginDesc.external 0]
          presets := some [PresetDesc.external 1] }
        { forceAsyncTransformation := false, forceES5 := false,
          angularLinker := none, i18n := none,
          optimize := some { looseEnums := true, pureTopLevel := true
                             wrapDecorators := false } }).presets =
      some ((({ plugins := some [PluginDesc.external 0]
                presets := some [PresetDesc.external 1] } :
            BabelConfigOptions).presets.getD []) ++
        [PresetDesc.application
          { forceAsyncTransformation := false, forceES5 := false,
            angularLinker := none, i18n := none,
            optimize := some { looseEnums := true, pureTopLevel := true
                               wrapDecorators := false } }])) :=
  ⟨rfl, configStep_stage_order
    { plugins := some [PluginDesc.external 0]
      presets := some [PresetDesc.external 1] }
    { forceAsyncTransformation := false, forceES5 := false,
      angularLinker := none, i18n := none,
      optimize := some { looseEnums := true, pureTopLevel := true
                         wrapDecorators := false } }
    { looseEnums := true, pureTopLevel := true, wrapDecorators := false } rfl⟩

/-- The all-defaults custom options, used in concrete cache-key inputs. -/
def sampleCustom : AngularCustomOptions :=
  { forceAsyncTransformation := false, forceES5 := false,
    angularLinker := none, i18n := none, optimize := none }

set_option maxRecDepth 8192 in
/-- C4 fails as stated: `JSON.stringify` serialises the raw caller
options in key insertion order, so two raw-option objects holding the
same key/value pairs in different insertion orders — equal as finite
maps, here even permutations of each other — yield different cache keys. -/
theorem cacheIdentifier_order_counterexample :
    ([("alpha".data, RawVal.boolean true), ("beta".data, RawVal.null)] :
        RawOptions).Perm
      [("beta".data, RawVal.null), ("alpha".data, RawVal.boolean true)] ∧
    cacheIdentifier "13.0.0".data sampleCustom
        [("alpha".data, RawVal.boolean true), ("beta".data, RawVal.null)] ≠
      cacheIdentifier "13.0.0".data sampleCustom
        [("beta".data, RawVal.null), ("alpha".data, RawVal.boolean true)] := by
  decide

/-- C4 (amended): the cache key is a pure function of the tool version,
the resolved custom options, the (constant) base options and the raw
caller options taken with their key insertion order: any two resolver
invocations agreeing on those four inputs produce identical keys.  (It is
plain `JSON.stringify`, not a sorted-key serialisation, so it does depend
on the raw options' key insertion order.) -/
theorem cacheIdentifier_pure_function (env env' : Env) (st st' : Caches)
    (ctx ctx' : LoaderContext) (source source' : List Char)
    (opts opts' : CallerOptions) (version version' : List Char)
    (hv : version = version')
    (hco : (resolveCustomOptions env st ctx source opts version).custom =
      (resolveCustomOptions env' st' ctx' source' opts' version').custom)
    (hraw : opts.rawOptions = opts'.rawOptions) :
    (resolveCustomOptions env st ctx source opts version).loader.cacheIdentifier =
      (resolveCustomOptions env' st' ctx' source' opts' version').loader.cacheIdentifier := by
  rw [resolve_cacheIdentifier_eq, resolve_cacheIdentifier_eq, hco, hraw, hv]

/-- Witness for C4's purity at concrete inputs: two invocations differing
only in the module-level caches and the external detector's behaviour on
other files still agree on the key. -/
theorem cacheIdentifier_pure_function_witness :
    "13.0.0".data = "13.0.0".data ∧
    (resolveCustomOptions sampleEnv sampleCaches sampleCtx "let x = 1".data
        { i18n := none, scriptTarget := none, aot := none, optimize := none,
          rawOptions := [] } "13.0.0".data).custom =
      (resolveCustomOptions sampleEnvI18nOk
        { needsLinking := some (), linkerPluginCreator := none,
          i18nPluginCreators := none }
        sampleCtx "let x = 1".data
        { i18n := none, scriptTarget := none, aot := none, optimize := none,
          rawOptions := [] } "13.0.0".data).custom ∧
    (resolveCustomOptions sampleEnv sampleCaches sampleCtx "let x = 1".data
        { i18n := none, scriptTarget := none, aot := none, optimize := none,
          rawOptions := [] } "13.0.0".data).loader.cacheIdentifier =
      (resolveCustomOptions sampleEnvI18nOk
        { needsLinking := some (), linkerPluginCreator := none,
          i18nPluginCreators := none }
        sampleCtx "let x = 1".data
        { i18n := none, scriptTarget := none, aot := none, optimize := none,
          rawOptions := [] } "13.0.0".data).loader.cacheIdentifier := by
  refine ⟨rfl, by decide, ?_⟩
  exact cacheIdentifier_pure_function sampleEnv sampleEnvI18nOk sampleCaches
    { needsLinking := some (), linkerPluginCreator := none, i18nPluginCreators := none }
    sampleCtx sampleCtx "let x = 1".data "let x = 1".data
    { i18n := none, scriptTarget := none, aot := none, optimize := none,
      rawOptions := [] }
    { i18n := none, scriptTarget := none, aot := none, optimize := none,
      rawOptions := [] }
    "13.0.0".data "13.0.0".data rfl (by decide) rfl

/-- Any schedule run from a state whose capability cache is already
filled and in which no task is suspended inside a load performs no
further loads, and the cache stays filled. -/
theorem runSched_cached_no_loading (sch : List Nat) (s : RaceState)
    (hc : s.cacheLoaded = true)
    (hnl : ∀ pc ∈ s.tasks, pc ≠ TaskPC.loading) :
    (runSched s sch).loadCount = s.loadCount ∧
      (runSched s sch).cacheLoaded = true := by
  induction sch generalizing s with
  | nil => exact ⟨rfl, hc⟩
  | cons i rest ih =>
    have hstep : (stepTask s i).loadCount = s.loadCount ∧
        (stepTask s i).cacheLoaded = true ∧
        ∀ pc ∈ (stepTask s i).tasks, pc ≠ TaskPC.loading := by
      unfold stepTask
      cases hget : s.tasks.get? i with
      | none => exact ⟨rfl, hc, hnl⟩
      | some pc =>
        cases pc with
        | ready =>
          rw [if_pos hc]
          refine ⟨rfl, hc, ?_⟩
          intro pc' hmem
          rcases List.mem_or_eq_of_mem_set hmem with hmem' | rfl
          · exact hnl pc' hmem'
          · simp
        | loading =>
          exact absurd rfl (hnl _ (List.get?_mem hget))
        | done => exact ⟨rfl, hc, hnl⟩
    have hrun := ih (stepTask s i) hstep.2.1 hstep.2.2
    exact ⟨by rw [runSched, hrun.1, hstep.1], by rw [runSched]; exact hrun.2⟩

/-- C8 fails as stated: the `if (!cache) { cache = await load(); }`
pattern is not guarded across the `await`, so two resolutions that both
reach the check before either load completes (schedule `[0, 1, 0, 1]`)
each perform their own load — two loads of the capability, not one. -/
theorem linker_load_race_counterexample :
    (runSched (initRace 2) [0, 1, 0, 1]).loadCount = 2 ∧
    ¬(runSched (initRace 2) [0, 1, 0, 1]).loadCount = 1 := by
  decide

/-- C8 (amended): loads of a linker capability are memoized but not
race-guarded: when the first resolution's check and load complete before
any other resolution reaches the check (schedule `0, 0, …`), the
capability is loaded exactly once, every later resolution observes the
filled cache, and no interleaving of the remaining resolutions performs
another load. -/
theorem linker_load_sequential_once (n : Nat) (rest : List Nat) (h : 1 ≤ n) :
    (runSched (initRace n) (0 :: 0 :: rest)).loadCount = 1 ∧
    (runSched (initRace n) (0 :: 0 :: rest)).cacheLoaded = true := by
  obtain ⟨m, rfl⟩ : ∃ m, n = m + 1 := ⟨n - 1, (Nat.succ_pred_eq_of_pos h).symm⟩
  have hstart : stepTask (stepTask (initRace (m + 1)) 0) 0 =
      { cacheLoaded := true, loadCount := 1,
        tasks := TaskPC.done :: List.replicate m TaskPC.ready } := rfl
  show (runSched (stepTask (stepTask (initRace (m + 1)) 0) 0) rest).loadCount = 1 ∧
    (runSched (stepTask (stepTask (initRace (m + 1)) 0) 0) rest).cacheLoaded = true
  rw [hstart]
  have := runSched_cached_no_loading rest
    { cacheLoaded := true, loadCount := 1,
      tasks := TaskPC.done :: List.replicate m TaskPC.ready }
    rfl
    (by
      intro pc hmem
      rcases List.mem_cons.mp hmem with rfl | hmem'
      · simp
      · rw [List.eq_of_mem_replicate hmem']
        simp)
  exact ⟨this.1, this.2⟩

/-- Witness for C8 (amended) with 100 resolutions: the first runs to
completion, then the remaining 99 interleave arbitrarily. -/
theorem linker_load_sequential_once_witness :
    1 ≤ 100 ∧
    ((runSched (initRace 100) (0 :: 0 :: [1, 2, 1, 3, 2, 99, 3, 99])).loadCount = 1 ∧
    (runSched (initRace 100) (0 :: 0 :: [1, 2, 1, 3, 2, 99, 3, 99])).cacheLoaded = true) :=
  ⟨by decide, linker_load_sequential_once 100 [1, 2, 1, 3, 2, 99, 3, 99] (by decide)⟩

end WebpackLoader
